import Mathlib

set_option maxRecDepth 4000

/-!
Verification of the content-generation pipeline orchestration core.

Shallow embedding of:
- app/temporal/schemas.py        (WorkflowStatus, StepProgress, WorkflowInput)
- app/temporal/workflows/base.py (WorkflowContext, maybe_rewrite helpers)
- app/core/providers/litellm/client.py (LiteLLMClient.complete, _should_fallback)
- app/temporal/workflows/generations/slideshows_pinterest.py
  (scrape fan-out/gather, scoring, dedup, stable sort, diversity selection,
   query generation fallback)
- app/temporal/workflows/generations/ruby.py (sequential pipeline URL flow)
- app/core/tools/gptmarket/pinterest.py (scraper response parsing)

Python dicts with a fixed key schema are embedded as structures with Option
fields; Python exceptions as Except; machine-independent numerics as Int/Rat.
-/

/-! ### String helpers (Python `in`, `str.lower`, `str.join`) -/

/-- True when `p` matches the front of `s` character by character. -/
def matchesAt : List Char → List Char → Bool
  | [], _ => true
  | _ :: _, [] => false
  | a :: as, b :: bs => a == b && matchesAt as bs

/-- Python substring test `p in s` on character lists. -/
def occursIn (p : List Char) : List Char → Bool
  | [] => matchesAt p []
  | b :: t => matchesAt p (b :: t) || occursIn p t

/-- Python substring test `p in s` on strings. -/
def strIn (p s : String) : Bool := occursIn p.data s.data

/-- Python `str.lower()` (per-character, stated on the underlying character
list so it reduces structurally). -/
def lowerStr (s : String) : String := ⟨s.data.map Char.toLower⟩

/-- Python slice `s[:n]` (code points), stated on the underlying character
list so it reduces structurally. -/
def strTake (s : String) (n : Nat) : String := ⟨s.data.take n⟩

/-- Python `'; '.join(errors)`. -/
def joinSemi : List String → String
  | [] => ""
  | [e] => e
  | e :: f :: rest => e ++ "; " ++ joinSemi (f :: rest)

/-! ### WorkflowStatus / StepProgress / ApplicationError (app/temporal/schemas.py) -/

/-- WorkflowStatus enum from app/temporal/schemas.py. -/
inductive WorkflowStatus where
  | pending
  | running
  | completed
  | failed
  | cancelled
deriving DecidableEq, Repr

/-- StepProgress dataclass from app/temporal/schemas.py. -/
structure StepProgress where
  step_id : String
  step_name : String
  status : WorkflowStatus
  progress_pct : Int := 0
  message : Option String := none
deriving DecidableEq, Repr

/-- temporalio ApplicationError as raised by the workflows (message plus the
non_retryable flag). -/
structure AppError where
  message : String
  nonRetryable : Bool
deriving DecidableEq, Repr

/-- The two auth-relevant fields of app_config (app/core/configs/app.py):
WORKFLOW_SECRET_ENABLED : bool, WORKFLOW_SECRET_KEY : str | None. -/
structure AppConfig where
  WORKFLOW_SECRET_ENABLED : Bool
  WORKFLOW_SECRET_KEY : Option String
deriving DecidableEq, Repr

/-- Python truthiness of a `str | None` value (None and the empty string are
falsy). -/
def pyTruthyOptStr : Option String → Bool
  | none => false
  | some s => s ≠ ""

/-! ### WorkflowContext (app/temporal/workflows/base.py) -/

/-- Mutable state of WorkflowContext.  The `_outputs` dict is omitted: no
claim touches set_output/get_output and `Any` values have no bearing on
status tracking. -/
structure WorkflowContext where
  _status : WorkflowStatus := .pending
  _current_step : Option StepProgress := none
  _completed_steps : List String := []
deriving DecidableEq, Repr

/-- WorkflowContext.start: validate the secret when auth is enabled, then
mark the workflow RUNNING.  Raising is modeled as Except.error; the context
value is unchanged in that case (the exception propagates before the
RUNNING assignment). -/
def WorkflowContext.start (cfg : AppConfig) (secret_key : Option String)
    (ctx : WorkflowContext) : Except AppError WorkflowContext :=
  if cfg.WORKFLOW_SECRET_ENABLED then
    if ¬ pyTruthyOptStr cfg.WORKFLOW_SECRET_KEY then
      .error ⟨"WORKFLOW_SECRET_KEY not configured on server", true⟩
    else if secret_key ≠ cfg.WORKFLOW_SECRET_KEY then
      .error ⟨"Authentication failed: invalid secret_key", true⟩
    else .ok { ctx with _status := .running }
  else .ok { ctx with _status := .running }

/-- WorkflowContext.complete. -/
def WorkflowContext.complete (ctx : WorkflowContext) : WorkflowContext :=
  { ctx with
    _status := .completed
    _current_step := some
      { step_id := "complete", step_name := "Complete", status := .completed
        progress_pct := 100, message := some "Done!" } }

/-- WorkflowContext.fail. -/
def WorkflowContext.fail (error : String) (ctx : WorkflowContext) : WorkflowContext :=
  { ctx with
    _status := .failed
    _current_step := ctx._current_step.map
      (fun sp => { sp with status := .failed, message := some error }) }

/-- Entry half of the `step` async context manager: record the step as
RUNNING.  The overall status is not written here. -/
def WorkflowContext.stepEnter (step_id step_name : String) (progress_pct : Int)
    (message : String) (ctx : WorkflowContext) : WorkflowContext :=
  { ctx with
    _current_step := some
      { step_id := step_id, step_name := step_name, status := .running
        progress_pct := progress_pct
        message := some (if message ≠ "" then message else step_name ++ "...") } }

/-- Normal-exit half of the `step` context manager: mark the current step
COMPLETED and append its id.  The overall status is not written here. -/
def WorkflowContext.stepExitOk (step_id : String) (ctx : WorkflowContext) : WorkflowContext :=
  { ctx with
    _current_step := ctx._current_step.map (fun sp => { sp with status := .completed })
    _completed_steps := ctx._completed_steps ++ [step_id] }

/-- Exceptional-exit half of the `step` context manager: mark the step and
the overall context FAILED (the exception then re-raises). -/
def WorkflowContext.stepExitErr (e : String) (ctx : WorkflowContext) : WorkflowContext :=
  { ctx with
    _status := .failed
    _current_step := ctx._current_step.map
      (fun sp => { sp with status := .failed, message := some e }) }

/-- One observable operation on a WorkflowContext. -/
inductive CtxOp where
  | start (cfg : AppConfig) (secret_key : Option String)
  | stepEnter (id name : String) (pct : Int) (msg : String)
  | stepExitOk (id : String)
  | stepExitErr (e : String)
  | complete
  | fail (e : String)

/-- Apply one operation to a context.  A start that raises leaves the
context unchanged (the assignment to RUNNING is never reached). -/
def applyOp (ctx : WorkflowContext) : CtxOp → WorkflowContext
  | .start cfg key =>
    match ctx.start cfg key with
    | .ok c => c
    | .error _ => ctx
  | .stepEnter id name pct msg => ctx.stepEnter id name pct msg
  | .stepExitOk id => ctx.stepExitOk id
  | .stepExitErr e => ctx.stepExitErr e
  | .complete => ctx.complete
  | .fail e => ctx.fail e

/-! ### Claim C1: authentication gate in start() -/

/-- Claim C1: when WORKFLOW_SECRET_ENABLED is set and either no server secret
is configured or the input secret_key is absent or differs, start() raises a
non-retryable error and the context is unchanged (status stays PENDING, no
step reaches RUNNING); when the secret matches, and whenever auth is
disabled, start() succeeds and the status becomes RUNNING. -/
theorem c1_auth_gate (cfg : AppConfig) (key : Option String) (ctx : WorkflowContext) :
    (cfg.WORKFLOW_SECRET_ENABLED = true →
      pyTruthyOptStr cfg.WORKFLOW_SECRET_KEY = false →
      ∃ e : AppError, ctx.start cfg key = .error e ∧ e.nonRetryable = true ∧
        applyOp ctx (.start cfg key) = ctx) ∧
    (cfg.WORKFLOW_SECRET_ENABLED = true →
      pyTruthyOptStr cfg.WORKFLOW_SECRET_KEY = true →
      key ≠ cfg.WORKFLOW_SECRET_KEY →
      ∃ e : AppError, ctx.start cfg key = .error e ∧ e.nonRetryable = true ∧
        applyOp ctx (.start cfg key) = ctx) ∧
    (cfg.WORKFLOW_SECRET_ENABLED = true →
      pyTruthyOptStr cfg.WORKFLOW_SECRET_KEY = true →
      key = cfg.WORKFLOW_SECRET_KEY →
      ctx.start cfg key = .ok { ctx with _status := .running }) ∧
    (cfg.WORKFLOW_SECRET_ENABLED = false →
      ctx.start cfg key = .ok { ctx with _status := .running }) := by
  refine ⟨?_, ?_, ?_, ?_⟩
  · intro hen hkey
    refine ⟨⟨"WORKFLOW_SECRET_KEY not configured on server", true⟩, ?_, rfl, ?_⟩
    · simp [WorkflowContext.start, hen, hkey]
    · simp [applyOp, WorkflowContext.start, hen, hkey]
  · intro hen hkey hne
    refine ⟨⟨"Authentication failed: invalid secret_key", true⟩, ?_, rfl, ?_⟩
    · simp [WorkflowContext.start, hen, hkey, hne]
    · simp [applyOp, WorkflowContext.start, hen, hkey, hne]
  · intro hen hkey heq
    simp [WorkflowContext.start, hen, hkey, heq]
  · intro hen
    simp [WorkflowContext.start, hen]

/-- Claim C1 witness: concrete run of the auth gate.  With auth enabled,
server secret "k" and no client secret, start() raises non-retryably and
the fresh context still has status PENDING and no current step. -/
theorem c1_auth_gate_witness :
    (({ WORKFLOW_SECRET_ENABLED := true, WORKFLOW_SECRET_KEY := some "k" } : AppConfig).WORKFLOW_SECRET_ENABLED = true) ∧
    (pyTruthyOptStr (some "k") = true) ∧
    ((none : Option String) ≠ some "k") ∧
    ∃ e : AppError,
      WorkflowContext.start ⟨true, some "k"⟩ none {} = .error e ∧ e.nonRetryable = true ∧
      applyOp {} (.start ⟨true, some "k"⟩ none) = ({} : WorkflowContext) :=
  ⟨rfl, by decide, by decide,
    (c1_auth_gate ⟨true, some "k"⟩ none {}).2.1 rfl (by decide) (by decide)⟩

/-! ### Claim C2: are terminal statuses absorbing? -/

/-- Claim C2 counterexample: the claim says COMPLETED/FAILED/CANCELLED are
absorbing under every sequence of context operations.  But complete()
unconditionally overwrites the status: after fail() the status is FAILED,
and a subsequent complete() moves it to COMPLETED, so a terminal state is
left by a later operation. -/
theorem c2_counterexample :
    (WorkflowContext.fail "boom" {})._status = .failed ∧
    (applyOp (WorkflowContext.fail "boom" {}) .complete)._status = .completed ∧
    (applyOp (WorkflowContext.fail "boom" {}) .complete)._status ≠ .failed := by
  refine ⟨rfl, rfl, by decide⟩

/-- Claim C2 (amended): the context itself does not guard terminal states.
What does hold: step entry and step completion never change the overall
status (so they preserve any terminal status), while a step failure and
fail() always yield FAILED and complete() always yields COMPLETED,
regardless of the prior status. -/
theorem c2_terminal_ops (ctx : WorkflowContext) (id name msg e : String) (pct : Int) :
    ((applyOp ctx (.stepEnter id name pct msg))._status = ctx._status) ∧
    ((applyOp ctx (.stepExitOk id))._status = ctx._status) ∧
    ((applyOp ctx (.stepExitErr e))._status = .failed) ∧
    ((applyOp ctx (.fail e))._status = .failed) ∧
    ((applyOp ctx .complete)._status = .completed) :=
  ⟨rfl, rfl, rfl, rfl, rfl⟩

/-! ### Substring lemmas for the combined-error and aggregate-error messages -/

theorem matchesAt_self_append (p t : List Char) : matchesAt p (p ++ t) = true := by
  induction p with
  | nil => rfl
  | cons a as ih => simp [matchesAt, ih]

theorem occursIn_of_matchesAt (p s : List Char) (h : matchesAt p s = true) :
    occursIn p s = true := by
  cases s with
  | nil => simpa [occursIn] using h
  | cons b bs => simp [occursIn, h]

theorem occursIn_here (p t : List Char) : occursIn p (p ++ t) = true :=
  occursIn_of_matchesAt _ _ (matchesAt_self_append p t)

theorem occursIn_cons_of (p : List Char) (c : Char) (s : List Char)
    (h : occursIn p s = true) : occursIn p (c :: s) = true := by
  cases s with
  | nil => simp [occursIn] at h ⊢ ; simp [h]
  | cons b bs => simp only [occursIn] at h ⊢ ; simp [h]

theorem occursIn_append_of (x p : List Char) (h : occursIn p x = true) :
    ∀ y, occursIn p (y ++ x) = true := by
  intro y
  induction y with
  | nil => simpa using h
  | cons c cs ih => exact occursIn_cons_of p c (cs ++ x) ih

theorem occursIn_middle (x p y : List Char) : occursIn p (x ++ (p ++ y)) = true :=
  occursIn_append_of (p ++ y) p (occursIn_here p y) x

/-- Any string of the form a ++ p ++ b contains p as a substring. -/
theorem strIn_sandwich (a p b : String) : strIn p (a ++ p ++ b) = true := by
  have : (a ++ p ++ b).data = a.data ++ (p.data ++ b.data) := by
    simp [String.data_append, List.append_assoc]
  simp only [strIn, this]
  exact occursIn_middle a.data p.data b.data

/-- Every element of a list occurs as a substring of its '; '-join. -/
theorem strIn_joinSemi {s : String} : ∀ {l : List String}, s ∈ l → strIn s (joinSemi l) = true := by
  intro l
  induction l with
  | nil => intro h; cases h
  | cons e rest ih =>
    intro h
    cases rest with
    | nil =>
      have : s = e := by cases h with
        | head => rfl
        | tail _ h' => cases h'
      subst this
      have := strIn_sandwich "" s ""
      simpa using this
    | cons f fs =>
      cases h with
      | head =>
        have := strIn_sandwich "" s ("; " ++ joinSemi (f :: fs))
        simpa [joinSemi, String.append_assoc] using this
      | tail _ h' =>
        have hrec := ih h'
        have : joinSemi (e :: f :: fs) = (e ++ "; ") ++ joinSemi (f :: fs) ++ "" := by
          simp [joinSemi, String.append_assoc]
        rw [this]
        have hdata : ((e ++ "; ") ++ joinSemi (f :: fs) ++ "").data
            = (e ++ "; ").data ++ (joinSemi (f :: fs)).data := by
          simp [String.data_append]
        simp only [strIn, hdata]
        exact occursIn_append_of _ _ hrec (e ++ "; ").data

/-! ### LiteLLM fallback client (app/core/providers/litellm/client.py) -/

/-- FallbackConfig from app/core/providers/litellm/schemas.py. -/
structure FallbackConfig where
  enabled : Bool := true
  fallback_model : String
  max_retries : Int := 2
  retry_exceptions : List String :=
    ["RateLimitError", "APIConnectionError", "Timeout", "ServiceUnavailableError"]
deriving DecidableEq, Repr

/-- A raised Python exception: its type name and its str() rendering. -/
structure PyError where
  typeName : String
  message : String
deriving DecidableEq, Repr

/-- LiteLLMClient._should_fallback: the error type name contains one of the
configured retry-exception names, or the lowercased message contains the
lowercased exception name, or the lowercased message contains one of the
fixed transient indicators. -/
def transientIndicators : List String :=
  ["rate limit", "timeout", "connection", "unavailable", "overloaded", "429", "503", "502"]

def shouldFallback (cfg : FallbackConfig) (error : PyError) : Bool :=
  cfg.retry_exceptions.any (fun excName =>
    strIn excName error.typeName || strIn (lowerStr excName) (lowerStr error.message))
  || transientIndicators.any (fun ind => strIn ind (lowerStr error.message))

/-- CompletionResponse restricted to the fields the fallback logic writes:
content, serving model and the fallback_used provenance flag. -/
structure CompletionResponse where
  content : String
  model : String
  fallback_used : Bool
deriving DecidableEq, Repr

/-- LiteLLMClient.complete with the two _complete_with_model network calls
supplied as oracle outcomes (primary and fallback).  Returns the overall
outcome paired with the number of fallback invocations that occurred. -/
def liteLLMComplete (cfg : FallbackConfig) (model fbModel : String)
    (primary fallback : Except PyError String) :
    Except PyError CompletionResponse × Nat :=
  match primary with
  | .ok c => (.ok ⟨c, model, false⟩, 0)
  | .error primaryError =>
    if ¬ cfg.enabled then (.error primaryError, 0)
    else if ¬ shouldFallback cfg primaryError then (.error primaryError, 0)
    else
      match fallback with
      | .ok c => (.ok ⟨c, fbModel, true⟩, 1)
      | .error fallbackError =>
        (.error
          ⟨"RuntimeError",
            "Both primary (" ++ model ++ ") and fallback (" ++ fbModel ++
            ") models failed. Primary error: " ++ primaryError.message ++
            ". Fallback error: " ++ fallbackError.message⟩, 1)

/-! ### Claim C3: fallback behavior of the completion client -/

/-- Claim C3: if the primary attempt succeeds the fallback path is never
invoked; on a transient-classified failure with fallback enabled exactly one
fallback attempt occurs; if fallback is disabled or the error is not
transient the original primary error propagates unchanged with zero fallback
attempts; and when both attempts fail the combined error message embeds both
failure messages. -/
theorem c3_fallback_client (cfg : FallbackConfig) (model fbModel : String)
    (primary fallback : Except PyError String) :
    (∀ c, primary = .ok c →
      liteLLMComplete cfg model fbModel primary fallback = (.ok ⟨c, model, false⟩, 0)) ∧
    (∀ pe, primary = .error pe → cfg.enabled = true → shouldFallback cfg pe = true →
      (liteLLMComplete cfg model fbModel primary fallback).2 = 1) ∧
    (∀ pe, primary = .error pe → (cfg.enabled = false ∨ shouldFallback cfg pe = false) →
      liteLLMComplete cfg model fbModel primary fallback = (.error pe, 0)) ∧
    (∀ pe fe, primary = .error pe → fallback = .error fe →
      cfg.enabled = true → shouldFallback cfg pe = true →
      ∃ ce : PyError,
        (liteLLMComplete cfg model fbModel primary fallback).1 = .error ce ∧
        ce.typeName = "RuntimeError" ∧
        strIn pe.message ce.message = true ∧
        strIn fe.message ce.message = true) := by
  refine ⟨?_, ?_, ?_, ?_⟩
  · intro c hp; subst hp; rfl
  · intro pe hp hen hsf
    subst hp
    cases fallback <;> simp [liteLLMComplete, hen, hsf]
  · intro pe hp hdis
    subst hp
    rcases hdis with hen | hsf
    · simp [liteLLMComplete, hen]
    · cases hen : cfg.enabled <;> simp [liteLLMComplete, hen, hsf]
  · intro pe fe hp hf hen hsf
    subst hp; subst hf
    refine ⟨⟨"RuntimeError",
        "Both primary (" ++ model ++ ") and fallback (" ++ fbModel ++
        ") models failed. Primary error: " ++ pe.message ++
        ". Fallback error: " ++ fe.message⟩,
      by simp [liteLLMComplete, hen, hsf], rfl, ?_, ?_⟩
    · have := strIn_sandwich
        ("Both primary (" ++ model ++ ") and fallback (" ++ fbModel ++
          ") models failed. Primary error: ") pe.message
        (". Fallback error: " ++ fe.message)
      simpa [String.append_assoc] using this
    · have := strIn_sandwich
        ("Both primary (" ++ model ++ ") and fallback (" ++ fbModel ++
          ") models failed. Primary error: " ++ pe.message ++ ". Fallback error: ")
        fe.message ""
      simpa [String.append_assoc] using this

/-- Claim C3 witness: a transient primary failure (a Timeout) followed by a
fallback failure, run through the client at concrete inputs.  The combined
error carries both messages. -/
theorem c3_fallback_client_witness :
    (({ fallback_model := "gpt-4o-mini" } : FallbackConfig).enabled = true) ∧
    (shouldFallback { fallback_model := "gpt-4o-mini" } ⟨"Timeout", "request timed out"⟩ = true) ∧
    ∃ ce : PyError,
      (liteLLMComplete { fallback_model := "gpt-4o-mini" } "gemini" "gpt-4o-mini"
        (.error ⟨"Timeout", "request timed out"⟩) (.error ⟨"RateLimitError", "429 slow down"⟩)).1
        = .error ce ∧
      ce.typeName = "RuntimeError" ∧
      strIn "request timed out" ce.message = true ∧
      strIn "429 slow down" ce.message = true :=
  ⟨rfl, by decide,
    (c3_fallback_client { fallback_model := "gpt-4o-mini" } "gemini" "gpt-4o-mini"
      (.error ⟨"Timeout", "request timed out"⟩)
      (.error ⟨"RateLimitError", "429 slow down"⟩)).2.2.2
      ⟨"Timeout", "request timed out"⟩ ⟨"RateLimitError", "429 slow down"⟩
      rfl rfl rfl (by decide)⟩

/-! ### Fan-out gather (_scrape_pinterest, slideshows_pinterest.py) -/

/-- The settled outcome of one scrape branch, as observed after
asyncio.gather(..., return_exceptions=True): either the branch raised, or it
returned a ToolOutput with success flag, error string and (possibly falsy)
output dict.  `output = none` models a falsy output dict; `output = some ps`
models a truthy output dict whose 'pins' entry is `ps` (possibly empty). -/
inductive ToolBranch (π : Type) where
  | exc (msg : String)
  | res (success : Bool) (error : String) (output : Option (List π))

/-- The collection loop of _scrape_pinterest: walk the (query, outcome)
pairs in order, extending all_pins from successful truthy outputs and
recording an error entry for raised or failed branches. -/
def collectPins {π : Type} : List (String × ToolBranch π) → List π × List String
  | [] => ([], [])
  | (q, b) :: rest =>
    let acc := collectPins rest
    match b with
    | .exc m => (acc.1, ("Query \x22" ++ q ++ "\x22: " ++ m) :: acc.2)
    | .res false err _ => (acc.1, ("Query \x22" ++ q ++ "\x22: " ++ err) :: acc.2)
    | .res true _ none => acc
    | .res true _ (some pins) => (pins ++ acc.1, acc.2)

/-- _scrape_pinterest after all branches settle: raise a non-retryable
aggregate error iff no pins were collected and at least one branch failed
(`if not all_pins and errors`), otherwise return the collected pins. -/
def scrapeGather {π : Type} (branches : List (String × ToolBranch π)) :
    Except AppError (List π) :=
  match collectPins branches with
  | ([], e :: es) => .error ⟨"All Pinterest queries failed: " ++ joinSemi (e :: es), true⟩
  | (pins, _) => .ok pins

/-- Every pin of a branch that settled successfully with a truthy output is
present in the collected pin list, regardless of the other branches. -/
theorem mem_collectPins_of {π : Type} (p : π) :
    ∀ (branches : List (String × ToolBranch π)) (q e : String) (ps : List π),
      (q, ToolBranch.res true e (some ps)) ∈ branches → p ∈ ps →
      p ∈ (collectPins branches).1 := by
  intro branches
  induction branches with
  | nil => intro q e ps hmem _; cases hmem
  | cons hd tl ih =>
    intro q e ps hmem hp
    rcases List.mem_cons.mp hmem with heq | htl
    · subst heq
      simp only [collectPins, List.mem_append]
      exact Or.inl hp
    · rcases hd with ⟨q', b⟩
      cases b with
      | exc m => simpa [collectPins] using ih q e ps htl hp
      | res s err out =>
        cases s with
        | false => simpa [collectPins] using ih q e ps htl hp
        | true =>
          cases out with
          | none => simpa [collectPins] using ih q e ps htl hp
          | some pins =>
            simp only [collectPins, List.mem_append]
            exact Or.inr (ih q e ps htl hp)

/-! ### Claim C4: fan-out gather error policy -/

/-- Claim C4 counterexample: the claim says that with 0 < successes < N the
gather never raises.  With two branches where the first settles successfully
but yields zero pins and the second raises, the code collects no pins,
records one failure, and raises the aggregate error even though one branch
succeeded. -/
theorem c4_counterexample :
    (collectPins (π := Unit) [("a", .res true "" (some [])), ("b", .exc "boom")]
      = ([], ["Query \x22b\x22: boom"])) ∧
    scrapeGather (π := Unit) [("a", .res true "" (some [])), ("b", .exc "boom")]
      = .error ⟨"All Pinterest queries failed: Query \x22b\x22: boom", true⟩ :=
  ⟨rfl, rfl⟩

/-- Claim C4 (amended): branches settle independently (every pin of every
successful truthy branch reaches the collected list no matter how the other
branches end); if the collected pin list is non-empty the gather returns it
normally; if it is empty and at least one branch failed, a non-retryable
aggregate error is raised whose message embeds every failed branch's
(query, error) entry; if it is empty with no failures the gather returns the
empty list.  A branch that succeeds with zero pins does not prevent the
aggregate error. -/
theorem c4_gather (π : Type) (branches : List (String × ToolBranch π)) :
    ((collectPins branches).1 ≠ [] →
      scrapeGather branches = .ok (collectPins branches).1) ∧
    ((collectPins branches).1 = [] → (collectPins branches).2 ≠ [] →
      scrapeGather branches =
        .error ⟨"All Pinterest queries failed: " ++ joinSemi (collectPins branches).2, true⟩ ∧
      ∀ entry ∈ (collectPins branches).2,
        strIn entry ("All Pinterest queries failed: " ++ joinSemi (collectPins branches).2) = true) ∧
    ((collectPins branches).1 = [] → (collectPins branches).2 = [] →
      scrapeGather branches = .ok []) ∧
    (∀ qb ∈ branches, ∀ e ps, qb.2 = ToolBranch.res true e (some ps) →
      ∀ p ∈ ps, p ∈ (collectPins branches).1) := by
  refine ⟨?_, ?_, ?_, ?_⟩
  · intro hne
    unfold scrapeGather
    rcases hcp : collectPins branches with ⟨pins, errors⟩
    rw [hcp] at hne
    simp only at hne
    cases pins with
    | nil => exact absurd rfl hne
    | cons p ps => cases errors <;> rfl
  · intro h1 h2
    constructor
    · unfold scrapeGather
      rcases hcp : collectPins branches with ⟨pins, errors⟩
      rw [hcp] at h1 h2
      simp only at h1 h2
      subst h1
      cases errors with
      | nil => exact absurd rfl h2
      | cons e es => rfl
    · intro entry hmem
      have hj := strIn_joinSemi hmem
      have hdata : ("All Pinterest queries failed: " ++ joinSemi (collectPins branches).2).data
          = ("All Pinterest queries failed: ").data ++ (joinSemi (collectPins branches).2).data := by
        simp [String.data_append]
      simp only [strIn, hdata]
      exact occursIn_append_of _ _ hj ("All Pinterest queries failed: ").data
  · intro h1 h2
    unfold scrapeGather
    rcases hcp : collectPins branches with ⟨pins, errors⟩
    rw [hcp] at h1 h2
    simp only at h1 h2
    subst h1; subst h2
    rfl
  · intro qb hmem e ps hres p hp
    rcases qb with ⟨q, b⟩
    have hb : b = ToolBranch.res true e (some ps) := hres
    subst hb
    exact mem_collectPins_of p branches q e ps hmem hp

/-- Claim C4 witness: total failure of two branches raises the aggregate
error embedding both (query, error) entries. -/
theorem c4_gather_witness :
    (collectPins (π := Nat) [("q1", .exc "boom1"), ("q2", .res false "boom2" none)]).1 = [] ∧
    (collectPins (π := Nat) [("q1", .exc "boom1"), ("q2", .res false "boom2" none)]).2 ≠ [] ∧
    (scrapeGather (π := Nat) [("q1", .exc "boom1"), ("q2", .res false "boom2" none)] =
      .error ⟨"All Pinterest queries failed: Query \x22q1\x22: boom1; Query \x22q2\x22: boom2", true⟩ ∧
     strIn "Query \x22q1\x22: boom1"
       "All Pinterest queries failed: Query \x22q1\x22: boom1; Query \x22q2\x22: boom2" = true ∧
     strIn "Query \x22q2\x22: boom2"
       "All Pinterest queries failed: Query \x22q1\x22: boom1; Query \x22q2\x22: boom2" = true) := by
  refine ⟨rfl, by decide, ?_⟩
  have h := (c4_gather Nat [("q1", .exc "boom1"), ("q2", .res false "boom2" none)]).2.1
    rfl (by decide)
  refine ⟨h.1, ?_, ?_⟩
  · exact h.2 "Query \x22q1\x22: boom1" (by decide)
  · exact h.2 "Query \x22q2\x22: boom2" (by decide)

/-! ### Candidate scoring and selection
(slideshows_pinterest.py: _score_pin, _calculate_text_penalty,
_select_best_images, _compute_image_hash, _is_too_similar) -/

/-- A scraped pin dict, embedded with its fixed key schema.  Every field may
be missing (`pin.get`).  `aspect` models the dict key `aspect_ratio`. -/
structure Pin where
  id : Option String := none
  title : Option String := none
  description : Option String := none
  image_url : Option String := none
  aspect : Option String := none
  image_width : Option Int := none
  image_height : Option Int := none
deriving DecidableEq, Repr

/-- Python truthiness of pin.get('title') style values. -/
def Pin.hasTitle (p : Pin) : Bool := pyTruthyOptStr p.title

def Pin.hasDescription (p : Pin) : Bool := pyTruthyOptStr p.description

def Pin.hasId (p : Pin) : Bool := pyTruthyOptStr p.id

/-- Resolution score block of _score_pin: `pin.get('image_width') or 0`,
same for height, then `min(40, pixels / 25000)` when both are truthy. -/
def resolutionTerm (p : Pin) : ℚ :=
  let w := p.image_width.getD 0
  let h := p.image_height.getD 0
  if w ≠ 0 ∧ h ≠ 0 then min 40 (((w * h : Int) : ℚ) / 25000) else 0

/-- Metadata score block of _score_pin. -/
def metadataTerm (p : Pin) : ℚ :=
  (if p.hasTitle then 10 else 0) + (if p.hasDescription then 10 else 0)

/-- Aspect-ratio score block of _score_pin.  In the source the membership
tests compare against AspectRatio enum values, which are exactly the string
literals used here ('9:16', '2:3', '3:4', '1:1'). -/
def aspectTerm (p : Pin) : ℚ :=
  let a := p.aspect.getD ""
  let w := p.image_width.getD 0
  let h := p.image_height.getD 0
  if a = "9:16" then 30
  else if a = "2:3" ∨ a = "3:4" then 25
  else if a = "1:1" then 15
  else if w ≠ 0 ∧ h ≠ 0 ∧ w < h then 20
  else 0

/-- ID-presence score block of _score_pin. -/
def identityTerm (p : Pin) : ℚ := if p.hasId then 10 else 0

/-- The _UNWANTED_IMAGE_KEYWORDS block-list, transcribed from the source.
The source stores it as a frozenset; iteration order does not affect the
penalty because only the number of matched keywords matters. -/
def unwantedKeywords : List String :=
  ["infographic", "template", "printable", "checklist", "worksheet",
   "quote", "quotes", "tips", "tutorial", "how to", "howto",
   "step by step", "guide", "cheat sheet", "cheatsheet", "recipe",
   "ingredients", "instructions", "diy", "download", "free", "pdf",
   "ebook", "chart", "diagram", "graph", "statistics",
   "logo", "watermark", "stock", "shutterstock", "getty", "adobe stock",
   "pin this", "save this", "click", "link in bio",
   "collage", "grid", "mood board", "moodboard", "collection",
   "compilation", "roundup", "round up", "best of", "3x3", "2x2", "4x4",
   "photo dump", "photodump"]

/-- `f'{title} {description}'` over the lowercased `or ''` fallbacks. -/
def combinedText (p : Pin) : String :=
  lowerStr (p.title.getD "") ++ " " ++ lowerStr (p.description.getD "")

/-- The keyword loop of _calculate_text_penalty: `found` counts the keywords
matched so far; the first match adds 50, each later match adds 15. -/
def penaltyScan (text : String) (found : Nat) : List String → ℚ
  | [] => 0
  | kw :: rest =>
    if strIn kw text then
      (if found = 0 then 50 else 15) + penaltyScan text (found + 1) rest
    else
      penaltyScan text found rest

/-- _calculate_text_penalty: keyword scan capped at 100. -/
def textPenalty (p : Pin) : ℚ := min 100 (penaltyScan (combinedText p) 0 unwantedKeywords)

/-- _score_pin: sum of the four score blocks minus the text penalty. -/
def scorePin (p : Pin) : ℚ :=
  resolutionTerm p + metadataTerm p + aspectTerm p + identityTerm p - textPenalty p

/-- Number of distinct block-listed keywords occurring in the combined
text (the claim's `m`). -/
def matchedKeywordCount (p : Pin) : Nat :=
  (unwantedKeywords.filter (fun kw => strIn kw (combinedText p))).length

/-- Penalty as the claim states it: 0 when no keyword matches, otherwise
min(100, 50 + 15*(m-1)). -/
def penaltySpec (p : Pin) : ℚ :=
  if matchedKeywordCount p = 0 then 0
  else min 100 (50 + 15 * ((matchedKeywordCount p : ℚ) - 1))

/-- Score as the claim states it. -/
def scoreSpec (p : Pin) : ℚ :=
  resolutionTerm p + metadataTerm p + aspectTerm p + identityTerm p - penaltySpec p

/-- Dedup-and-score loop of _select_best_images: keep the first occurrence
of each truthy image_url, drop candidates without one, score survivors. -/
def dedupScore : List Pin → List String → List (ℚ × Pin)
  | [], _ => []
  | p :: rest, seen =>
    let url := p.image_url.getD ""
    if url = "" ∨ url ∈ seen then dedupScore rest seen
    else (scorePin p, p) :: dedupScore rest (url :: seen)

def scoredOf (pins : List Pin) : List (ℚ × Pin) := dedupScore pins []

/-- Descending comparison on the score component, the key of
`scored_pins.sort(key=lambda x: x[0], reverse=True)`. -/
def scoreLE (a b : ℚ × Pin) : Bool := decide (b.1 ≤ a.1)

/-- Python's list.sort is stable, so the sort is modeled as a mergeSort on
position-tagged entries with ties broken by the original position. -/
def rankedSorted (pins : List Pin) : List (Nat × (ℚ × Pin)) :=
  ((scoredOf pins).enum).mergeSort (List.enumLE scoreLE)

def sortedScored (pins : List Pin) : List (ℚ × Pin) := (rankedSorted pins).map (·.2)

/-- PinterestImage model (also the shape of GptMarketPinterestPin).
`aspect` models the field `aspect_ratio`. -/
structure PImage where
  id : String
  title : Option String := none
  description : Option String := none
  image_url : String
  aspect : String
  image_width : Option Int := none
  image_height : Option Int := none
deriving DecidableEq, Repr

/-- The PinterestImage constructed from a scraped pin dict in
_select_best_images.  `str(pin.get('id', ''))` is the identity on the
string-typed ids the scraper emits. -/
def mkImage (p : Pin) : PImage :=
  { id := p.id.getD ""
    title := p.title
    description := p.description
    image_url := p.image_url.getD ""
    aspect := p.aspect.getD "9:16"
    image_width := p.image_width
    image_height := p.image_height }

/-- Python `l[-n:]`. -/
def lastN (n : Nat) (l : List String) : List String := l.drop (l.length - n)

/-- The md5 input of _compute_image_hash: dash-join of the last three
URL path components, then ':width:height' with the `or 0` fallbacks. -/
def hashInput (p : Pin) : String :=
  String.intercalate "-" (lastN 3 ((p.image_url.getD "").splitOn "/"))
    ++ ":" ++ toString (p.image_width.getD 0) ++ ":" ++ toString (p.image_height.getD 0)

/-- _compute_image_hash with hashlib.md5(...).hexdigest() supplied as an
external function `md5hex` (an opaque library primitive): the fingerprint is
its first 8 hex characters. -/
def computeImageHash (md5hex : String → String) (p : Pin) : String :=
  strTake (md5hex (hashInput p)) 8

/-- _is_too_similar: two fingerprints collide when their first 4 characters
agree. -/
def isTooSimilar (pinHash : String) (selectedHashes : List String) : Bool :=
  selectedHashes.any (fun eh => strTake pinHash 4 == strTake eh 4)

/-- _NUM_IMAGES_TO_RETURN. -/
def NUM_IMAGES_TO_RETURN : Nat := 25

/-- The diversity-constrained greedy walk of _select_best_images:
`remaining` is the number of slots left (k minus the selected count);
`hashes` are the fingerprints of the already-selected images. -/
def selectWalk (md5hex : String → String) :
    List (ℚ × Pin) → Nat → List String → List PImage
  | [], _, _ => []
  | _ :: _, 0, _ => []
  | (_, pin) :: rest, Nat.succ r, hashes =>
    let ph := computeImageHash md5hex pin
    if isTooSimilar ph hashes then selectWalk md5hex rest (Nat.succ r) hashes
    else mkImage pin :: selectWalk md5hex rest r (ph :: hashes)

/-- _select_best_images: dedup, score, stable-sort descending, then the
diversity-constrained greedy selection of at most 25 images. -/
def selectBestImages (md5hex : String → String) (pins : List Pin) : List PImage :=
  selectWalk md5hex (sortedScored pins) NUM_IMAGES_TO_RETURN []

/-- The fingerprint of a constructed PinterestImage, recomputed from the
fields that _compute_image_hash reads (they are copied verbatim from the
pin dict by mkImage). -/
def imageHashInput (img : PImage) : String :=
  String.intercalate "-" (lastN 3 (img.image_url.splitOn "/"))
    ++ ":" ++ toString (img.image_width.getD 0) ++ ":" ++ toString (img.image_height.getD 0)

def imageFingerprint (md5hex : String → String) (img : PImage) : String :=
  strTake (md5hex (imageHashInput img)) 8

/-! ### Claim C5: the scoring formula -/

/-- With at least one keyword already matched, every further match adds 15. -/
theorem penaltyScan_pos (text : String) :
    ∀ (kws : List String) (found : Nat), found ≠ 0 →
      penaltyScan text found kws =
        15 * (((kws.filter (fun kw => strIn kw text)).length : ℚ)) := by
  intro kws
  induction kws with
  | nil => intro found _; simp [penaltyScan]
  | cons kw rest ih =>
    intro found hf
    by_cases hkw : strIn kw text
    · have hrec := ih (found + 1) (Nat.succ_ne_zero found)
      have hfilt : (kw :: rest).filter (fun kw => strIn kw text)
          = kw :: rest.filter (fun kw => strIn kw text) := by
        simp [List.filter_cons, hkw]
      rw [hfilt]
      simp only [penaltyScan, hkw, if_true, if_neg hf, hrec, List.length_cons]
      push_cast
      ring
    · have hrec := ih found hf
      have hfilt : (kw :: rest).filter (fun kw => strIn kw text)
          = rest.filter (fun kw => strIn kw text) := by
        simp [List.filter_cons, hkw]
      rw [hfilt]
      simp only [penaltyScan, hkw, if_false, hrec]
      simp

/-- Starting from zero matches, the scan yields 0 when nothing matches and
50 + 15*(m-1) when m keywords match. -/
theorem penaltyScan_zero (text : String) :
    ∀ (kws : List String),
      penaltyScan text 0 kws =
        if (kws.filter (fun kw => strIn kw text)).length = 0 then 0
        else 50 + 15 * (((kws.filter (fun kw => strIn kw text)).length : ℚ) - 1) := by
  intro kws
  induction kws with
  | nil => simp [penaltyScan]
  | cons kw rest ih =>
    by_cases hkw : strIn kw text
    · have hrec := penaltyScan_pos text rest 1 one_ne_zero
      have hfilt : (kw :: rest).filter (fun kw => strIn kw text)
          = kw :: rest.filter (fun kw => strIn kw text) := by
        simp [List.filter_cons, hkw]
      rw [hfilt]
      simp only [penaltyScan, hkw, if_true, hrec, List.length_cons]
      rw [if_neg (Nat.succ_ne_zero _)]
      push_cast
      ring
    · have hfilt : (kw :: rest).filter (fun kw => strIn kw text)
          = rest.filter (fun kw => strIn kw text) := by
        simp [List.filter_cons, hkw]
      rw [hfilt]
      simp only [penaltyScan, hkw, if_false, ih]
      simp

/-- Claim C5: for every candidate, _score_pin equals the claim's closed
formula: resolutionTerm + metadataTerm + aspectTerm + identityTerm − penalty
with penalty = 0 when no block-listed keyword matches and
min(100, 50 + 15*(m−1)) when m ≥ 1 distinct keywords occur in the lowercased
title-plus-description text. -/
theorem c5_score_formula (p : Pin) : scorePin p = scoreSpec p := by
  unfold scorePin scoreSpec textPenalty penaltySpec matchedKeywordCount
  rw [penaltyScan_zero]
  by_cases hm : (unwantedKeywords.filter (fun kw => strIn kw (combinedText p))).length = 0
  · rw [if_pos hm, if_pos hm]
    norm_num
  · rw [if_neg hm, if_neg hm]

/-! ### Claim C7: diversity, bound, and empty-input behavior of selection -/

/-- The fingerprint recomputed from a constructed image equals the hash
computed from the originating pin dict. -/
theorem imageFingerprint_mkImage (md5hex : String → String) (p : Pin) :
    imageFingerprint md5hex (mkImage p) = computeImageHash md5hex p := rfl

/-- Invariant of the greedy walk: the output has at most `remaining`
elements, its fingerprints pairwise differ on their first 4 characters and
also differ from every already-recorded fingerprint. -/
theorem selectWalk_invariant (md5hex : String → String) :
    ∀ (scored : List (ℚ × Pin)) (r : Nat) (hashes : List String),
      (selectWalk md5hex scored r hashes).length ≤ r ∧
      List.Pairwise
        (fun a b => strTake (imageFingerprint md5hex a) 4 ≠ strTake (imageFingerprint md5hex b) 4)
        (selectWalk md5hex scored r hashes) ∧
      (∀ img ∈ selectWalk md5hex scored r hashes, ∀ eh ∈ hashes,
        strTake (imageFingerprint md5hex img) 4 ≠ strTake eh 4) := by
  intro scored
  induction scored with
  | nil =>
    intro r hashes
    refine ⟨by simp [selectWalk], by simp [selectWalk], by simp [selectWalk]⟩
  | cons hd rest ih =>
    intro r hashes
    rcases hd with ⟨s, pin⟩
    cases r with
    | zero => refine ⟨by simp [selectWalk], by simp [selectWalk], by simp [selectWalk]⟩
    | succ r' =>
      by_cases hsim : isTooSimilar (computeImageHash md5hex pin) hashes
      · have hred : selectWalk md5hex ((s, pin) :: rest) (r' + 1) hashes
            = selectWalk md5hex rest (r' + 1) hashes := by
          simp [selectWalk, hsim]
        rw [hred]
        exact ih (r' + 1) hashes
      · have hred : selectWalk md5hex ((s, pin) :: rest) (r' + 1) hashes
            = mkImage pin :: selectWalk md5hex rest r' (computeImageHash md5hex pin :: hashes) := by
          simp [selectWalk, hsim]
        rw [hred]
        have hnotsim : ∀ eh ∈ hashes,
            strTake (computeImageHash md5hex pin) 4 ≠ strTake eh 4 := by
          intro eh hmem heq
          apply hsim
          unfold isTooSimilar
          rw [List.any_eq_true]
          exact ⟨eh, hmem, by rw [heq]; exact beq_self_eq_true _⟩
        obtain ⟨ihlen, ihpw, ihfresh⟩ := ih r' (computeImageHash md5hex pin :: hashes)
        refine ⟨?_, ?_, ?_⟩
        · simpa using Nat.succ_le_succ ihlen
        · refine List.pairwise_cons.mpr ⟨?_, ihpw⟩
          intro img hmem
          rw [imageFingerprint_mkImage]
          intro heq
          exact ihfresh img hmem (computeImageHash md5hex pin) (List.mem_cons_self _ _) heq.symm
        · intro img hmem eh heh
          rcases List.mem_cons.mp hmem with heqimg | htl
          · subst heqimg
            rw [imageFingerprint_mkImage]
            exact hnotsim eh heh
          · exact ihfresh img htl eh (List.mem_cons_of_mem _ heh)

/-- Claim C7: for every hash function and input list, no two selected images
share the same 4-character fingerprint prefix; at most 25 images (the fixed
k) are selected; and empty input yields empty output.  The walk is a total
function, so an available diverse set smaller than k simply yields a shorter
list, never an error. -/
theorem c7_diversity (md5hex : String → String) (pins : List Pin) :
    List.Pairwise
      (fun a b => strTake (imageFingerprint md5hex a) 4 ≠ strTake (imageFingerprint md5hex b) 4)
      (selectBestImages md5hex pins) ∧
    (selectBestImages md5hex pins).length ≤ NUM_IMAGES_TO_RETURN ∧
    selectBestImages md5hex [] = [] := by
  obtain ⟨hlen, hpw, _⟩ :=
    selectWalk_invariant md5hex (sortedScored pins) NUM_IMAGES_TO_RETURN []
  refine ⟨hpw, hlen, ?_⟩
  have hempty : sortedScored [] = [] := by
    simp [sortedScored, rankedSorted, scoredOf, dedupScore]
  simp [selectBestImages, hempty, selectWalk]

/-! ### Claim C6: deterministic stable descending sort -/

theorem scoreLE_trans (a b c : ℚ × Pin) :
    scoreLE a b → scoreLE b c → scoreLE a c := by
  simp only [scoreLE, decide_eq_true_eq]
  intro h1 h2
  exact le_trans h2 h1

theorem scoreLE_total (a b : ℚ × Pin) : scoreLE a b || scoreLE b a := by
  simp only [scoreLE]
  rcases le_total a.1 b.1 with h | h <;> simp [h]

/-- The greedy walk returns the mkImage-rendering of a sublist of its input,
so the selected images appear in sorted-list order. -/
theorem selectWalk_sublist (md5hex : String → String) :
    ∀ (scored : List (ℚ × Pin)) (r : Nat) (hashes : List String),
      ∃ sub : List (ℚ × Pin), sub.Sublist scored ∧
        selectWalk md5hex scored r hashes = sub.map (fun sp => mkImage sp.2) := by
  intro scored
  induction scored with
  | nil => intro r hashes; exact ⟨[], List.nil_sublist _, by simp [selectWalk]⟩
  | cons hd rest ih =>
    intro r hashes
    rcases hd with ⟨s, pin⟩
    cases r with
    | zero => exact ⟨[], List.nil_sublist _, by simp [selectWalk]⟩
    | succ r' =>
      by_cases hsim : isTooSimilar (computeImageHash md5hex pin) hashes
      · obtain ⟨sub, hsub, heq⟩ := ih (r' + 1) hashes
        exact ⟨sub, hsub.cons _, by simpa [selectWalk, hsim] using heq⟩
      · obtain ⟨sub, hsub, heq⟩ := ih r' (computeImageHash md5hex pin :: hashes)
        refine ⟨(s, pin) :: sub, hsub.cons₂ _, ?_⟩
        simp [selectWalk, hsim, heq]

/-- Claim C6: selection is deterministic (same input list, same output
list); the position-tagged sorted list is pairwise ordered by strictly
descending score with ties in strictly increasing original position (the
stable descending sort); the sorted list is a permutation of the
deduplicated scored list; and the selected output is the image-rendering of
a sublist of the sorted list, so equal-scored selected candidates keep
their input order as well. -/
theorem c6_stable_sort (md5hex : String → String) (pins : List Pin) :
    (selectBestImages md5hex pins = selectBestImages md5hex pins) ∧
    List.Pairwise
      (fun a b : Nat × (ℚ × Pin) => b.2.1 < a.2.1 ∨ (a.2.1 = b.2.1 ∧ a.1 < b.1))
      (rankedSorted pins) ∧
    (sortedScored pins).Perm (scoredOf pins) ∧
    (∃ sub : List (ℚ × Pin), sub.Sublist (sortedScored pins) ∧
      selectBestImages md5hex pins = sub.map (fun sp => mkImage sp.2)) := by
  refine ⟨rfl, ?_, ?_, ?_⟩
  · have hsorted : (rankedSorted pins).Pairwise (fun a b => List.enumLE scoreLE a b = true) :=
      List.sorted_mergeSort (List.enumLE_trans scoreLE_trans) (List.enumLE_total scoreLE_total) _
    have hperm : (rankedSorted pins).Perm ((scoredOf pins).enum) :=
      List.mergeSort_perm _ _
    have hmapperm : ((rankedSorted pins).map Prod.fst).Perm
        (((scoredOf pins).enum).map Prod.fst) := hperm.map _
    have hrange : ((scoredOf pins).enum).map Prod.fst = List.range (scoredOf pins).length :=
      List.enum_map_fst _
    have hnodup : ((rankedSorted pins).map Prod.fst).Nodup := by
      rw [hmapperm.nodup_iff, hrange]
      exact List.nodup_range _
    have hpne : (rankedSorted pins).Pairwise (fun a b => a.1 ≠ b.1) :=
      List.pairwise_map.mp hnodup
    refine (hsorted.and hpne).imp ?_
    intro a b ⟨hle, hne⟩
    by_cases hab : b.2.1 ≤ a.2.1
    · by_cases hba : a.2.1 ≤ b.2.1
      · right
        have h1 : a.1 ≤ b.1 := by
          simp [List.enumLE, scoreLE, hab, hba] at hle
          exact hle
        exact ⟨le_antisymm hba hab, lt_of_le_of_ne h1 hne⟩
      · left
        exact lt_of_le_of_ne hab (fun h => hba (le_of_eq h.symm))
    · exfalso
      simp [List.enumLE, scoreLE, hab] at hle
  · have hperm : (rankedSorted pins).Perm ((scoredOf pins).enum) :=
      List.mergeSort_perm _ _
    have := hperm.map Prod.snd
    rw [List.enum_map_snd] at this
    exact this
  · exact selectWalk_sublist md5hex (sortedScored pins) NUM_IMAGES_TO_RETURN []

/-! ### Rewrite helpers (base.py) and the Ruby sequential pipeline (ruby.py) -/

/-- The rewrite-relevant fields of WorkflowInput (app/temporal/schemas.py). -/
structure WInput where
  secret_key : Option String := none
  rewrite_enabled : Bool := false
  rewrite_device : Option String := none
deriving DecidableEq, Repr

/-- maybe_rewrite_video with the rewrite_video activity injected as a
function of (video_url, playback_speed, device).  The Nat counts rewrite
activity invocations. -/
def maybeRewriteVideo (rewriteVideoAct : String → ℚ → Option String → String)
    (video_url : String) (input : WInput) (playback_speed : ℚ := 1) : String × Nat :=
  if ¬ input.rewrite_enabled then (video_url, 0)
  else (rewriteVideoAct video_url playback_speed input.rewrite_device, 1)

/-- maybe_rewrite_images with the rewrite_images activity injected as a
function of (image_urls, device). -/
def maybeRewriteImages (rewriteImagesAct : List String → Option String → List String)
    (image_urls : List String) (input : WInput) : List String × Nat :=
  if ¬ input.rewrite_enabled ∨ image_urls = [] then (image_urls, 0)
  else (rewriteImagesAct image_urls input.rewrite_device, 1)

/-- maybe_rewrite_image: delegates to maybe_rewrite_images on a singleton
and takes urls[0] (the activity returns one URL per input URL). -/
def maybeRewriteImage (rewriteImagesAct : List String → Option String → List String)
    (image_url : String) (input : WInput) : String × Nat :=
  if ¬ input.rewrite_enabled then (image_url, 0)
  else
    let r := maybeRewriteImages rewriteImagesAct [image_url] input
    (r.1.headD "", r.2)

/-- The URL-flow-relevant fields of RubyInput. -/
structure RubyFlowInput where
  base : WInput := {}
  slowed_video : Bool := true
  text_overlay : Option String := none
deriving DecidableEq, Repr

/-- The external stage results consumed by RubyWorkflow.run, injected as
oracles: generated media URLs and the post-processing / rewrite / upload
activities as functions. -/
structure RubyStages where
  face_url : String
  video_url : String
  slowAct : String → String
  textAct : String → String
  rewriteImagesAct : List String → Option String → List String
  rewriteVideoAct : String → ℚ → Option String → String
  uploadAct : String → String → String

/-- The video URL after the generation and optional post-processing stages
(slow motion, text overlay) of RubyWorkflow.run, before any rewrite. -/
def rubyVideoAfterEffects (env : RubyStages) (input : RubyFlowInput) : String :=
  let v1 := if input.slowed_video then env.slowAct env.video_url else env.video_url
  match input.text_overlay with
  | some t => if t ≠ "" then env.textAct v1 else v1
  | none => v1

/-- Output URL fields of RubyOutput. -/
structure RubyFlowOutput where
  face_image_url : String
  raw_video_url : String
  final_video_url : String
deriving DecidableEq, Repr

/-- The URL flow of RubyWorkflow.run: generation stages, optional
post-processing, the conditional rewrite step, and the face upload.
Returns the output URLs and the number of rewrite activity invocations. -/
def rubyRun (env : RubyStages) (input : RubyFlowInput) : RubyFlowOutput × Nat :=
  let face_image_url := env.face_url
  let raw_video_url := env.video_url
  let final_video_url := rubyVideoAfterEffects env input
  let step6 :=
    if input.base.rewrite_enabled then
      let f := maybeRewriteImage env.rewriteImagesAct face_image_url input.base
      let v := maybeRewriteVideo env.rewriteVideoAct final_video_url input.base
      (f.1, v.1, f.2 + v.2)
    else (face_image_url, final_video_url, 0)
  let face_uploaded := env.uploadAct step6.1 "ruby/faces"
  ({ face_image_url := face_uploaded
     raw_video_url := raw_video_url
     final_video_url := step6.2.1 }, step6.2.2)

/-! ### Claim C8: rewrite disabled means no rewrite and unmodified URLs -/

/-- Claim C8: with rewrite_enabled = false the helpers return their input
URL(s) unchanged without invoking any rewrite activity, the Ruby pipeline
performs zero rewrite invocations, its final video URL is exactly the URL
produced by the generation and post-processing stages, its raw video URL is
the generated one, and the upload stage receives the unmodified generated
face URL. -/
theorem c8_rewrite_disabled (env : RubyStages) (input : RubyFlowInput)
    (rv : String → ℚ → Option String → String)
    (ri : List String → Option String → List String)
    (w : WInput) (u : String) (us : List String) (sp : ℚ) :
    (w.rewrite_enabled = false →
      maybeRewriteVideo rv u w sp = (u, 0) ∧
      maybeRewriteImage ri u w = (u, 0) ∧
      maybeRewriteImages ri us w = (us, 0)) ∧
    (input.base.rewrite_enabled = false →
      (rubyRun env input).2 = 0 ∧
      (rubyRun env input).1.final_video_url = rubyVideoAfterEffects env input ∧
      (rubyRun env input).1.raw_video_url = env.video_url ∧
      (rubyRun env input).1.face_image_url = env.uploadAct env.face_url "ruby/faces") := by
  constructor
  · intro hoff
    refine ⟨?_, ?_, ?_⟩
    · simp [maybeRewriteVideo, hoff]
    · simp [maybeRewriteImage, hoff]
    · simp [maybeRewriteImages, hoff]
  · intro hoff
    refine ⟨?_, ?_, ?_, ?_⟩ <;> simp [rubyRun, hoff]

/-- Claim C8 witness: a concrete run with rewriting disabled.  The output
carries the generated URLs through slow motion and text overlay only, and
no rewrite invocation happens. -/
theorem c8_rewrite_disabled_witness :
    (({ base := {}, slowed_video := true, text_overlay := some "hi" } : RubyFlowInput).base.rewrite_enabled
      = false) ∧
    ((rubyRun
        { face_url := "f.png", video_url := "v.mp4",
          slowAct := fun u => u ++ ".slow",
          textAct := fun u => u ++ ".text",
          rewriteImagesAct := fun us _ => us.map (fun u => u ++ ".rw"),
          rewriteVideoAct := fun u _ _ => u ++ ".rw",
          uploadAct := fun u folder => folder ++ "/" ++ u }
        { base := {}, slowed_video := true, text_overlay := some "hi" }).2 = 0 ∧
     (rubyRun
        { face_url := "f.png", video_url := "v.mp4",
          slowAct := fun u => u ++ ".slow",
          textAct := fun u => u ++ ".text",
          rewriteImagesAct := fun us _ => us.map (fun u => u ++ ".rw"),
          rewriteVideoAct := fun u _ _ => u ++ ".rw",
          uploadAct := fun u folder => folder ++ "/" ++ u }
        { base := {}, slowed_video := true, text_overlay := some "hi" }).1.final_video_url
       = rubyVideoAfterEffects
          { face_url := "f.png", video_url := "v.mp4",
            slowAct := fun u => u ++ ".slow",
            textAct := fun u => u ++ ".text",
            rewriteImagesAct := fun us _ => us.map (fun u => u ++ ".rw"),
            rewriteVideoAct := fun u _ _ => u ++ ".rw",
            uploadAct := fun u folder => folder ++ "/" ++ u }
          { base := {}, slowed_video := true, text_overlay := some "hi" } ∧
     (rubyRun
        { face_url := "f.png", video_url := "v.mp4",
          slowAct := fun u => u ++ ".slow",
          textAct := fun u => u ++ ".text",
          rewriteImagesAct := fun us _ => us.map (fun u => u ++ ".rw"),
          rewriteVideoAct := fun u _ _ => u ++ ".rw",
          uploadAct := fun u folder => folder ++ "/" ++ u }
        { base := {}, slowed_video := true, text_overlay := some "hi" }).1.raw_video_url = "v.mp4" ∧
     (rubyRun
        { face_url := "f.png", video_url := "v.mp4",
          slowAct := fun u => u ++ ".slow",
          textAct := fun u => u ++ ".text",
          rewriteImagesAct := fun us _ => us.map (fun u => u ++ ".rw"),
          rewriteVideoAct := fun u _ _ => u ++ ".rw",
          uploadAct := fun u folder => folder ++ "/" ++ u }
        { base := {}, slowed_video := true, text_overlay := some "hi" }).1.face_image_url
       = "ruby/faces" ++ "/" ++ "f.png") :=
  ⟨rfl,
    (c8_rewrite_disabled
      { face_url := "f.png", video_url := "v.mp4",
        slowAct := fun u => u ++ ".slow",
        textAct := fun u => u ++ ".text",
        rewriteImagesAct := fun us _ => us.map (fun u => u ++ ".rw"),
        rewriteVideoAct := fun u _ _ => u ++ ".rw",
        uploadAct := fun u folder => folder ++ "/" ++ u }
      { base := {}, slowed_video := true, text_overlay := some "hi" }
      (fun u _ _ => u) (fun us _ => us) {} "x" [] 1).2 rfl⟩

/-! ### Pinterest scraper parsing (app/core/tools/gptmarket/pinterest.py) -/

/-- A JSON-ish Python value as found in a raw pin dict: a string, an int,
None, or some other value carried by its str() rendering. -/
inductive PVal where
  | pstr (s : String)
  | pint (n : Int)
  | pnull
  | pother (render : String)
deriving DecidableEq, Repr

/-- Python str() of such a value. -/
def pyStr : PVal → String
  | .pstr s => s
  | .pint n => toString n
  | .pnull => "None"
  | .pother r => r

/-- A raw pin dict from the API response, with the keys the parser reads.
`aspect` models the dict key `aspect_ratio`. -/
structure RawPin where
  id : Option PVal := none
  title : Option PVal := none
  description : Option PVal := none
  image_url : Option PVal := none
  aspect : Option PVal := none
  image_width : Option PVal := none
  image_height : Option PVal := none
deriving DecidableEq, Repr

/-- The filter `pin_data.get('aspect_ratio', '') != AspectRatio.PORTRAIT_9_16.value`:
only a string value equal to '9:16' passes (a missing key yields '' and any
non-string value compares unequal to a string in Python). -/
def aspectIs916 (raw : RawPin) : Bool := raw.aspect == some (PVal.pstr "9:16")

/-- Pydantic validation of a `str | None` field (lax mode: strings and None
pass, numbers and other values raise ValidationError). -/
def validateOptStr : Option PVal → Option (Option String)
  | none => some none
  | some .pnull => some none
  | some (.pstr s) => some (some s)
  | some _ => none

/-- Validation of the required str image_url field: the parser passes
`pin_data.get('image_url', '')`, so a missing key becomes ''; a None or
non-string value raises ValidationError. -/
def validateUrl : Option PVal → Option String
  | none => some ""
  | some (.pstr s) => some s
  | some _ => none

/-- Pydantic validation of an `int | None` field (lax mode: ints and None
pass, numeric strings are coerced, everything else raises). -/
def validateOptInt : Option PVal → Option (Option Int)
  | none => some none
  | some .pnull => some none
  | some (.pint n) => some (some n)
  | some (.pstr s) =>
    match s.toInt? with
    | some n => some (some n)
    | none => none
  | some _ => none

/-- Construction of GptMarketPinterestPin inside the try/except: any
ValidationError yields none (the pin is silently skipped).  The id is
`str(pin_data.get('id', ''))` and never fails; the aspect field is the
PORTRAIT_9_16 constant. -/
def validatePin (raw : RawPin) : Option PImage :=
  match validateOptStr raw.title, validateOptStr raw.description,
        validateUrl raw.image_url,
        validateOptInt raw.image_width, validateOptInt raw.image_height with
  | some t, some d, some u, some w, some h =>
    some { id := pyStr (raw.id.getD (.pstr "")), title := t, description := d,
           image_url := u, aspect := "9:16", image_width := w, image_height := h }
  | _, _, _, _, _ => none

/-- The parsing loop of GptMarketPinterestScraperTool.execute: skip pins
whose aspect_ratio is not the 9:16 string, then keep those that validate. -/
def parsePins (raw_pins : List RawPin) : List PImage :=
  (raw_pins.filter aspectIs916).filterMap validatePin

/-! ### Claim C9: the scraper only emits 9:16 candidates -/

/-- Claim C9: every pin emitted by the scraper parse loop has aspect ratio
exactly 9:16; an emitted pin always comes from a raw pin that passed the
9:16 filter and validated, and conversely every such raw pin's validation
result is emitted — pins with a different aspect_ratio value and pins that
fail validation are (silently) skipped. -/
theorem c9_scraper_916 (raw_pins : List RawPin) :
    (∀ img ∈ parsePins raw_pins, img.aspect = "9:16") ∧
    (∀ img, img ∈ parsePins raw_pins ↔
      ∃ raw ∈ raw_pins, aspectIs916 raw = true ∧ validatePin raw = some img) := by
  constructor
  · intro img hmem
    rcases List.mem_filterMap.mp hmem with ⟨raw, _, hval⟩
    unfold validatePin at hval
    split at hval
    · simp only [Option.some.injEq] at hval
      rw [← hval]
    · exact absurd hval (by simp)
  · intro img
    constructor
    · intro hmem
      rcases List.mem_filterMap.mp hmem with ⟨raw, hfil, hval⟩
      exact ⟨raw, (List.mem_filter.mp hfil).1, (List.mem_filter.mp hfil).2, hval⟩
    · intro ⟨raw, hmem, hfil, hval⟩
      exact List.mem_filterMap.mpr ⟨raw, List.mem_filter.mpr ⟨hmem, hfil⟩, hval⟩

/-- Claim C9 witness: one raw pin with a 9:16 aspect string validates and is
emitted with aspect 9:16; a 16:9 pin is skipped. -/
theorem c9_scraper_916_witness :
    (parsePins
      [{ id := some (.pstr "1"), title := some (.pstr "t"),
         image_url := some (.pstr "http://x/a.jpg"), aspect := some (.pstr "9:16"),
         image_width := some (.pint 900), image_height := some (.pint 1600) },
       { id := some (.pstr "2"), image_url := some (.pstr "http://x/b.jpg"),
         aspect := some (.pstr "16:9") }]
      = [{ id := "1", title := some "t", description := none,
           image_url := "http://x/a.jpg", aspect := "9:16",
           image_width := some 900, image_height := some 1600 }]) ∧
    ({ id := "1", title := some "t", description := none,
       image_url := "http://x/a.jpg", aspect := "9:16",
       image_width := some 900, image_height := some 1600 } : PImage) ∈
      parsePins
        [{ id := some (.pstr "1"), title := some (.pstr "t"),
           image_url := some (.pstr "http://x/a.jpg"), aspect := some (.pstr "9:16"),
           image_width := some (.pint 900), image_height := some (.pint 1600) },
         { id := some (.pstr "2"), image_url := some (.pstr "http://x/b.jpg"),
           aspect := some (.pstr "16:9") }] ∧
    ({ id := "1", title := some "t", description := none,
       image_url := "http://x/a.jpg", aspect := "9:16",
       image_width := some 900, image_height := some 1600 } : PImage).aspect = "9:16" := by
  refine ⟨by decide, ?_, ?_⟩
  · have h : parsePins
        [{ id := some (.pstr "1"), title := some (.pstr "t"),
           image_url := some (.pstr "http://x/a.jpg"), aspect := some (.pstr "9:16"),
           image_width := some (.pint 900), image_height := some (.pint 1600) },
         { id := some (.pstr "2"), image_url := some (.pstr "http://x/b.jpg"),
           aspect := some (.pstr "16:9") }]
        = [{ id := "1", title := some "t", description := none,
             image_url := "http://x/a.jpg", aspect := "9:16",
             image_width := some 900, image_height := some 1600 }] := by decide
    rw [h]
    exact List.mem_singleton.mpr rfl
  · exact (c9_scraper_916 _).1 _ (by
      have h : parsePins
          [{ id := some (.pstr "1"), title := some (.pstr "t"),
             image_url := some (.pstr "http://x/a.jpg"), aspect := some (.pstr "9:16"),
             image_width := some (.pint 900), image_height := some (.pint 1600) },
           { id := some (.pstr "2"), image_url := some (.pstr "http://x/b.jpg"),
             aspect := some (.pstr "16:9") }]
          = [{ id := "1", title := some "t", description := none,
               image_url := "http://x/a.jpg", aspect := "9:16",
               image_width := some 900, image_height := some 1600 }] := by decide
      rw [h]
      exact List.mem_singleton.mpr rfl)

/-! ### Query generation (_generate_queries, slideshows_pinterest.py) -/

/-- A parsed JSON value, as produced by json.loads on the completion
content (numbers restricted to ints, which is all the claim needs). -/
inductive Json where
  | jnull
  | jbool (b : Bool)
  | jnum (n : Int)
  | jstr (s : String)
  | jarr (elems : List Json)
  | jobj (fields : List (String × Json))

/-- Python truthiness of a JSON value. -/
def jTruthy : Json → Bool
  | .jnull => false
  | .jbool b => b
  | .jnum n => n ≠ 0
  | .jstr s => s ≠ ""
  | .jarr l => ¬ l.isEmpty
  | .jobj f => ¬ f.isEmpty

/-- Python `parsed.get(key, dflt)` on a dict (first binding wins). -/
def jGet (fields : List (String × Json)) (key : String) (dflt : Json) : Json :=
  match fields.find? (fun kv => kv.1 == key) with
  | some kv => kv.2
  | none => dflt

/-- _NUM_QUERIES. -/
def NUM_QUERIES : Nat := 5

/-- Python `queries[:5]`: lists and strings slice; any other truthy value
(int, dict, bool) raises TypeError. -/
def pySlice5 : Json → Except String Json
  | .jarr l => .ok (.jarr (l.take NUM_QUERIES))
  | .jstr s => .ok (.jstr (strTake s NUM_QUERIES))
  | _ => .error "TypeError"

/-- The parsing tail of _generate_queries: if response.parsed is a truthy
dict whose 'queries' value is truthy, return that value sliced to the first
5 elements; otherwise fall back to a single query equal to the raw prompt. -/
def generateQueries (parsed : Option Json) (prompt : String) : Except String Json :=
  match parsed with
  | some (.jobj fields) =>
    if jTruthy (.jobj fields) then
      let queries := jGet fields "queries" (.jarr [])
      if jTruthy queries then pySlice5 queries
      else .ok (.jarr [.jstr prompt])
    else .ok (.jarr [.jstr prompt])
  | _ => .ok (.jarr [.jstr prompt])

/-! ### Claim C10: query-generation fallback -/

/-- Claim C10 counterexample: the claim says that whenever the completion
yields no parseable non-empty 'queries' list the pipeline does not fail and
proceeds with the raw prompt as the only query.  But a truthy non-list
'queries' value is not replaced by the prompt: with parsed =
{'queries': 42} the slice expression 42[:5] raises TypeError (the step
fails), and with parsed = {'queries': 'hello'} the string itself is sliced
and returned instead of the prompt. -/
theorem c10_counterexample :
    generateQueries (some (.jobj [("queries", .jnum 42)])) "sunset"
      = .error "TypeError" ∧
    generateQueries (some (.jobj [("queries", .jnum 42)])) "sunset"
      ≠ .ok (.jarr [.jstr "sunset"]) ∧
    generateQueries (some (.jobj [("queries", .jstr "hello")])) "sunset"
      = .ok (.jstr "hello") := by
  refine ⟨rfl, ?_, rfl⟩
  intro h
  simp [generateQueries, jTruthy, jGet, pySlice5] at h

/-- Claim C10 (amended): if the parsed completion is absent, not a dict, an
empty dict, or its 'queries' value is absent or falsy, the run proceeds
without failing, with exactly one query equal to the raw prompt; if
'queries' is a non-empty list, its first 5 elements (at most _NUM_QUERIES)
are used; only a truthy non-list, non-string 'queries' value makes the
slice raise TypeError, and a non-empty string is sliced to its first 5
characters instead of being replaced by the prompt. -/
theorem c10_query_fallback (parsed : Option Json) (prompt : String) :
    (parsed = none → generateQueries parsed prompt = .ok (.jarr [.jstr prompt])) ∧
    (∀ j, parsed = some j → (∀ fields, j ≠ .jobj fields) →
      generateQueries parsed prompt = .ok (.jarr [.jstr prompt])) ∧
    (∀ fields, parsed = some (.jobj fields) →
      jTruthy (jGet fields "queries" (.jarr [])) = false →
      generateQueries parsed prompt = .ok (.jarr [.jstr prompt])) ∧
    (∀ fields l, parsed = some (.jobj fields) →
      jGet fields "queries" (.jarr []) = .jarr l → l ≠ [] →
      generateQueries parsed prompt = .ok (.jarr (l.take NUM_QUERIES)) ∧
      (l.take NUM_QUERIES).length ≤ NUM_QUERIES) := by
  refine ⟨?_, ?_, ?_, ?_⟩
  · intro h; subst h; rfl
  · intro j h hnot
    subst h
    cases j with
    | jobj fields => exact absurd rfl (hnot fields)
    | jnull => rfl
    | jbool b => rfl
    | jnum n => rfl
    | jstr s => rfl
    | jarr l => rfl
  · intro fields h hfalse
    subst h
    cases h1 : jTruthy (Json.jobj fields) <;> simp [generateQueries, h1, hfalse]
  · intro fields l h hq hne
    subst h
    have hfne : fields.isEmpty = false := by
      cases fields with
      | nil => simp [jGet] at hq; subst hq; exact absurd rfl hne
      | cons kv rest => rfl
    have h1 : jTruthy (Json.jobj fields) = true := by simp [jTruthy, hfne]
    have htq : jTruthy (Json.jarr l) = true := by simpa [jTruthy] using hne
    constructor
    · simp [generateQueries, h1, hq, htq, pySlice5]
    · exact List.length_take_le _ _

/-- Claim C10 witness: a parsed dict with six generated queries is clipped
to the first five; the hypotheses of the amended theorem hold at this
concrete input. -/
theorem c10_query_fallback_witness :
    (some (Json.jobj [("queries",
        Json.jarr [.jstr "q1", .jstr "q2", .jstr "q3", .jstr "q4", .jstr "q5", .jstr "q6"])])
      = some (Json.jobj [("queries",
        Json.jarr [.jstr "q1", .jstr "q2", .jstr "q3", .jstr "q4", .jstr "q5", .jstr "q6"])])) ∧
    (jGet [("queries",
        Json.jarr [.jstr "q1", .jstr "q2", .jstr "q3", .jstr "q4", .jstr "q5", .jstr "q6"])]
      "queries" (.jarr [])
      = Json.jarr [.jstr "q1", .jstr "q2", .jstr "q3", .jstr "q4", .jstr "q5", .jstr "q6"]) ∧
    ([Json.jstr "q1", .jstr "q2", .jstr "q3", .jstr "q4", .jstr "q5", .jstr "q6"] ≠ []) ∧
    (generateQueries
        (some (Json.jobj [("queries",
          Json.jarr [.jstr "q1", .jstr "q2", .jstr "q3", .jstr "q4", .jstr "q5", .jstr "q6"])]))
        "sunset"
      = .ok (.jarr [.jstr "q1", .jstr "q2", .jstr "q3", .jstr "q4", .jstr "q5"]) ∧
     ([Json.jstr "q1", .jstr "q2", .jstr "q3", .jstr "q4", .jstr "q5", .jstr "q6"].take
        NUM_QUERIES).length ≤ NUM_QUERIES) :=
  ⟨rfl, rfl, by simp,
    (c10_query_fallback
      (some (Json.jobj [("queries",
        Json.jarr [.jstr "q1", .jstr "q2", .jstr "q3", .jstr "q4", .jstr "q5", .jstr "q6"])]))
      "sunset").2.2.2
      [("queries",
        Json.jarr [.jstr "q1", .jstr "q2", .jstr "q3", .jstr "q4", .jstr "q5", .jstr "q6"])]
      [.jstr "q1", .jstr "q2", .jstr "q3", .jstr "q4", .jstr "q5", .jstr "q6"]
      rfl rfl (by simp)⟩
